import Mathlib

/-!
Verification of the request/response/retry core of the Catechism-Scripture
Analyzer (src/app.py).

The interesting code is the function `verify_claim` (app.py lines 20-91):
a loop of up to `MAX_RETRIES = 5` network attempts, where each attempt
posts the payload, calls `response.raise_for_status()`, parses the JSON
body, and either returns a result dictionary or raises.  A raised
`requests.exceptions.RequestException` is retried after an exponential
backoff sleep of `2 ** attempt` (unless it was the final attempt), and any
other exception immediately yields an error-shaped result.

The embedding below models:
  * JSON values and the exact Python dictionary/list operations the source
    uses (`.get` with and without a default, `[key]`, `[0]`, `in`,
    iteration, truthiness), each returning `Except PyErr` so that Python
    exceptions (KeyError, IndexError, TypeError, AttributeError) are
    explicit values;
  * one network attempt (`attemptBody`), covering `requests.post`
    (transport errors), `raise_for_status` (which raises `HTTPError`
    exactly for statuses 400-599), `response.json()` (a body that is not
    valid JSON raises `requests.exceptions.JSONDecodeError`, which is a
    `RequestException` in the requests versions this code runs against),
    and the parsing code of the `try` block;
  * the retry loop (`verifyFrom` / `verify_run`), instrumented with the
    number of network calls performed and the list of sleep delays, in
    order;
  * the `st.cache_data` memoization wrapper (modelled from the spec, since
    the decorator implementation is not part of this repository).

The network is modelled as a function from the 0-based attempt index to
that attempt's outcome, so every theorem quantifies over all transport
behaviours.
-/

/-- JSON values as produced by `response.json()`.  Numbers are modelled as
integers; no behaviour relevant to the claims depends on numeric values. -/
inductive Json where
  | null : Json
  | bool (b : Bool) : Json
  | num (n : Int) : Json
  | str (s : String) : Json
  | arr (elems : List Json) : Json
  | obj (fields : List (String × Json)) : Json

/-- First-match lookup in an association list, modelling a Python dict read
(keys of a Python dict are unique, so first-match agrees with dict access). -/
def Json.lookupField : List (String × Json) → String → Option Json
  | [], _ => none
  | (k, v) :: rest, key => if k = key then some v else Json.lookupField rest key

/-- Python truthiness of a JSON value. -/
def Json.truthy : Json → Bool
  | .null => false
  | .bool b => b
  | .num n => n != 0
  | .str s => !s.isEmpty
  | .arr elems => !elems.isEmpty
  | .obj fields => !fields.isEmpty

/-- Python exceptions (other than `RequestException`) that the parsing code
in the `try` block of app.py can raise. -/
inductive PyErr where
  | keyError (key : String)
  | indexError
  | typeError
  | attributeError

/-- Rendering of a Python exception as it would appear interpolated into an
error message. -/
def PyErr.detail : PyErr → String
  | .keyError k => "KeyError: " ++ k
  | .indexError => "IndexError: list index out of range"
  | .typeError => "TypeError: unsupported operand"
  | .attributeError => "AttributeError: object has no attribute get"

/-- Python `x.get(key, dflt)`: defined only on dicts, returns the default
when the key is absent. -/
def pyGetD (j : Json) (key : String) (dflt : Json) : Except PyErr Json :=
  match j with
  | .obj fields => .ok ((Json.lookupField fields key).getD dflt)
  | _ => .error .attributeError

/-- Python `x.get(key)`, whose default is `None`. -/
def pyGet (j : Json) (key : String) : Except PyErr Json :=
  pyGetD j key .null

/-- Python `x[key]` for a string key. -/
def pyItem (j : Json) (key : String) : Except PyErr Json :=
  match j with
  | .obj fields =>
    match Json.lookupField fields key with
    | some v => .ok v
    | none => .error (.keyError key)
  | _ => .error .typeError

/-- Python `x[0]`.  On an empty list this raises IndexError; on a dict it
raises KeyError (there is no integer key); on a string it yields the first
character. -/
def pyItem0 (j : Json) : Except PyErr Json :=
  match j with
  | .arr [] => .error .indexError
  | .arr (x :: _) => .ok x
  | .str s => if s.isEmpty then .error .indexError else .ok (.str (String.singleton s.front))
  | .obj _ => .error (.keyError "0")
  | _ => .error .typeError

/-- Contiguous-sublist test, used to model the Python substring test. -/
def listInfix (needle : List Char) : List Char → Bool
  | [] => needle.isEmpty
  | c :: rest => needle.isPrefixOf (c :: rest) || listInfix needle rest

/-- Python `key in x`. -/
def pyContains (j : Json) (key : String) : Except PyErr Bool :=
  match j with
  | .obj fields => .ok (Json.lookupField fields key).isSome
  | .arr elems => .ok (elems.any fun e => match e with | .str s => s == key | _ => false)
  | .str s => .ok (listInfix key.data s.data)
  | _ => .error .typeError

/-- Python iteration over a JSON value: a list yields its elements, a dict
its keys, a string its characters. -/
def pyIter (j : Json) : Except PyErr (List Json) :=
  match j with
  | .arr elems => .ok elems
  | .obj fields => .ok (fields.map fun f => Json.str f.1)
  | .str s => .ok (s.data.map fun c => Json.str (String.singleton c))
  | _ => .error .typeError

/-- Truthiness of the Python expression `a and b`: short-circuits, so the
second operand (which may raise) is only evaluated when `a` is truthy. -/
def pyAndCond (a : Json) (b : Except PyErr Json) : Except PyErr Bool :=
  if a.truthy then
    match b with
    | .ok v => .ok v.truthy
    | .error e => .error e
  else
    .ok false

/-- One extracted citation: the dict built at app.py line 74,
with keys "uri" and "title". -/
structure SourceRef where
  uri : Json
  title : Json

/-- The dictionary returned by `verify_claim`, which always has exactly the
two keys "text" and "sources". -/
structure VerificationResult where
  text : Json
  sources : List SourceRef

/-- One step of the list comprehension at app.py lines 73-76: condition
`"web" in attr and attr["web"].get("uri")`, element
`{uri: attr["web"]["uri"], title: attr["web"]["title"]}`.  The title is read
with direct indexing, not with a default. -/
def extractOne (attr : Json) : Except PyErr (Option SourceRef) := do
  let hasWeb ← pyContains attr "web"
  if hasWeb then
    let web ← pyItem attr "web"
    let uriProbe ← pyGet web "uri"
    if uriProbe.truthy then
      let web2 ← pyItem attr "web"
      let uri ← pyItem web2 "uri"
      let title ← pyItem web2 "title"
      pure (some ⟨uri, title⟩)
    else
      pure none
  else
    pure none

/-- The full list comprehension at app.py lines 73-76, left to right. -/
def extractSources : List Json → Except PyErr (List SourceRef)
  | [] => .ok []
  | attr :: rest => do
    let head ← extractOne attr
    let tail ← extractSources rest
    match head with
    | some s => pure (s :: tail)
    | none => pure tail

/-- The fixed message returned at app.py line 81. -/
def emptyCandidateText : String :=
  "Error: Model returned an empty response candidate."

/-- The message built at app.py line 89 from the attempt budget and the last
exception. -/
def connectFailText (n : Nat) (d : String) : String :=
  "Error: Failed to connect to the verification service after " ++ toString n
    ++ " attempts. Details: " ++ d

/-- The message built at app.py line 91 from an unexpected exception. -/
def unexpectedText (d : String) : String :=
  "An unexpected error occurred during API processing: " ++ d

/-- The parsing part of the `try` block, app.py lines 62-81, operating on the
value returned by `response.json()`. -/
def tryBlock (result : Json) : Except PyErr VerificationResult := do
  let cands ← pyGetD result "candidates" (.arr [.obj []])
  let candidate ← pyItem0 cands
  let cond ← pyAndCond candidate (do
    let content ← pyGetD candidate "content" (.obj [])
    let parts ← pyGetD content "parts" (.arr [.obj []])
    let part0 ← pyItem0 parts
    pyGet part0 "text")
  if cond then
    let content ← pyItem candidate "content"
    let parts ← pyItem content "parts"
    let part0 ← pyItem0 parts
    let text ← pyItem part0 "text"
    let gm ← pyGet candidate "groundingMetadata"
    let gaCond ← pyAndCond gm (pyGet gm "groundingAttributions")
    if gaCond then
      let ga ← pyItem gm "groundingAttributions"
      let attrs ← pyIter ga
      let sources ← extractSources attrs
      pure ⟨text, sources⟩
    else
      pure ⟨text, []⟩
  else
    pure ⟨.str emptyCandidateText, []⟩

/-- What `response.json()` yields: a JSON value, or a decode failure. -/
inductive BodyContent where
  | jsonBody (j : Json)
  | invalidBody (detail : String)

/-- The outcome of one network attempt, as seen by the code: either
`requests.post` itself raises, or it yields a response with a status code
and a body. -/
inductive AttemptOutcome where
  | transportError (detail : String)
  | httpResponse (status : Nat) (body : BodyContent)

/-- The two exception classes the source distinguishes: `RequestException`
(connection errors, timeouts, `HTTPError` from `raise_for_status`, JSON
decode errors) and every other exception. -/
inductive PyExc where
  | requestException (detail : String)
  | otherException (detail : String)

/-- One full attempt of the `try` block, app.py lines 58-81: post the
payload, `raise_for_status` (which raises exactly for statuses 400-599),
decode the body, parse.  Exceptions from the parsing code are not
`RequestException`s. -/
def attemptBody (o : AttemptOutcome) : Except PyExc VerificationResult :=
  match o with
  | .transportError d => .error (.requestException d)
  | .httpResponse status body =>
    if 400 ≤ status ∧ status < 600 then
      .error (.requestException ("HTTPError: status " ++ toString status))
    else
      match body with
      | .invalidBody d => .error (.requestException d)
      | .jsonBody result =>
        match tryBlock result with
        | .ok r => .ok r
        | .error e => .error (.otherException e.detail)

/-- Observable trace of one call of `verify_claim`: the returned value
(`none` would mean the loop fell off its end, Python returning `None`), the
number of network calls performed, and the backoff sleeps in order. -/
structure RunResult where
  out : Option VerificationResult
  attempts : Nat
  sleeps : List Nat

/-- app.py line 14. -/
def MAX_RETRIES : Nat := 5

/-- The retry loop, app.py lines 57-91.  `fuel` is the number of loop
iterations left (`range(MAX_RETRIES)` runs the body `MAX_RETRIES` times);
`attempt` is the 0-based loop variable; `sleeps` and `calls` accumulate the
trace. -/
def verifyFrom (t : Nat → AttemptOutcome) : Nat → Nat → List Nat → Nat → RunResult
  | 0, _, sleeps, calls => ⟨none, calls, sleeps⟩
  | fuel + 1, attempt, sleeps, calls =>
    match attemptBody (t attempt) with
    | .ok r => ⟨some r, calls + 1, sleeps⟩
    | .error (.requestException d) =>
      if attempt < MAX_RETRIES - 1 then
        verifyFrom t fuel (attempt + 1) (sleeps ++ [2 ^ attempt]) (calls + 1)
      else
        ⟨some ⟨.str (connectFailText MAX_RETRIES d), []⟩, calls + 1, sleeps⟩
    | .error (.otherException d) =>
      ⟨some ⟨.str (unexpectedText d), []⟩, calls + 1, sleeps⟩

/-- One call of `verify_claim` against transport `t`, with its trace. -/
def verify_run (t : Nat → AttemptOutcome) : RunResult :=
  verifyFrom t MAX_RETRIES 0 [] 0

/-- The value returned by `verify_claim` (ignoring the trace). -/
def verify_claim (t : Nat → AttemptOutcome) : Option VerificationResult :=
  (verify_run t).out

/-- The process-wide memoization map: claim string to stored return value. -/
structure CacheState where
  entries : List (String × Option VerificationResult)

/-- Outcome of one memoized call: the returned value, how many network calls
it performed, and the cache afterwards. -/
structure CachedOutcome where
  result : Option VerificationResult
  networkCalls : Nat
  state : CacheState

/-- Modelled from the spec: the `st.cache_data` decorator applied to
`verify_claim` at app.py line 19 (the decorator implementation is not part
of this repository).  Per the spec, before any network activity the
process-wide map is consulted with the exact claim string; on a hit the
stored value is returned with zero network calls, on a miss the body runs
and its return value is stored. -/
def cached_verify (t : String → Nat → AttemptOutcome) (s : CacheState)
    (claim : String) : CachedOutcome :=
  match s.entries.lookup claim with
  | some r => ⟨r, 0, s⟩
  | none =>
    let run := verify_run (t claim)
    ⟨run.out, run.attempts, ⟨s.entries ++ [(claim, run.out)]⟩⟩

/-- The string `sub` occurs contiguously inside `s`. -/
def strHas (s sub : String) : Prop :=
  ∃ p q, s = p ++ sub ++ q

/-- A well-formed success body: one candidate carrying `text` and the given
grounding attributions. -/
def goodBody (text : String) (attrs : List Json) : Json :=
  .obj [("candidates", .arr [.obj
    [("content", .obj [("parts", .arr [.obj [("text", .str text)]])]),
     ("groundingMetadata", .obj [("groundingAttributions", .arr attrs)])]])]

/-- An attribution with a web sub-object carrying both uri and title. -/
def webAttr (uri title : String) : Json :=
  .obj [("web", .obj [("uri", .str uri), ("title", .str title)])]

/-- An attribution whose web sub-object has a uri but no title. -/
def webAttrNoTitle (uri : String) : Json :=
  .obj [("web", .obj [("uri", .str uri)])]

/-- Transport that always fails at the transport level. -/
def twC1 : Nat → AttemptOutcome := fun _ => .transportError "boom"

/-- Transport whose first HTTP 200 response has attributions with and
without web sub-objects, the first web attribution lacking a title. -/
def twC3 : Nat → AttemptOutcome := fun _ =>
  .httpResponse 200 (.jsonBody (goodBody "T"
    [webAttrNoTitle "https://a", Json.obj [("other", Json.obj [])],
     webAttr "https://b" "B"]))

/-- Transport whose response is HTTP 200 with an empty candidates list. -/
def twC4 : Nat → AttemptOutcome := fun _ =>
  .httpResponse 200 (.jsonBody (.obj [("candidates", .arr [])]))

/-- Transport that fails on attempts 0-3 and succeeds on attempt 4. -/
def twC5 : Nat → AttemptOutcome := fun i =>
  if i < 4 then .transportError "boom" else .httpResponse 200 (.jsonBody (goodBody "T" []))

/-- Transport whose response repeats the same attribution twice. -/
def twC6 : Nat → AttemptOutcome := fun _ =>
  .httpResponse 200 (.jsonBody (goodBody "T"
    [webAttr "https://a" "A", webAttr "https://a" "A"]))

/-- Transport that always answers with a non-2xx status (304) and a
well-formed success body. -/
def twC8 : Nat → AttemptOutcome := fun _ =>
  .httpResponse 304 (.jsonBody (goodBody "T" []))

/-- Transport that always answers with HTTP 500. -/
def twC8b : Nat → AttemptOutcome := fun _ =>
  .httpResponse 500 (.jsonBody Json.null)

/-- Transport whose response carries one web attribution. -/
def twC9 : Nat → AttemptOutcome := fun _ =>
  .httpResponse 200 (.jsonBody (goodBody "T" [webAttr "https://a" "A"]))

/-- Transport whose HTTP 200 body lacks the "candidates" key entirely. -/
def twC10 : Nat → AttemptOutcome := fun _ =>
  .httpResponse 200 (.jsonBody (.obj [("other", Json.null)]))

/-! ### Loop lemmas -/

lemma verifyFrom_step (t : Nat → AttemptOutcome) (fuel attempt : Nat)
    (sleeps : List Nat) (calls : Nat) :
    verifyFrom t (fuel + 1) attempt sleeps calls =
      match attemptBody (t attempt) with
      | .ok r => ⟨some r, calls + 1, sleeps⟩
      | .error (.requestException d) =>
        if attempt < MAX_RETRIES - 1 then
          verifyFrom t fuel (attempt + 1) (sleeps ++ [2 ^ attempt]) (calls + 1)
        else
          ⟨some ⟨.str (connectFailText MAX_RETRIES d), []⟩, calls + 1, sleeps⟩
      | .error (.otherException d) =>
        ⟨some ⟨.str (unexpectedText d), []⟩, calls + 1, sleeps⟩ := rfl

lemma verifyFrom_ok (t : Nat → AttemptOutcome) (fuel attempt : Nat)
    (sleeps : List Nat) (calls : Nat) (r : VerificationResult)
    (h : attemptBody (t attempt) = .ok r) :
    verifyFrom t (fuel + 1) attempt sleeps calls = ⟨some r, calls + 1, sleeps⟩ := by
  rw [verifyFrom_step, h]

lemma verifyFrom_retry (t : Nat → AttemptOutcome) (fuel attempt : Nat)
    (sleeps : List Nat) (calls : Nat) (d : String)
    (h : attemptBody (t attempt) = .error (.requestException d))
    (hlt : attempt < MAX_RETRIES - 1) :
    verifyFrom t (fuel + 1) attempt sleeps calls
      = verifyFrom t fuel (attempt + 1) (sleeps ++ [2 ^ attempt]) (calls + 1) := by
  rw [verifyFrom_step, h]
  simp [hlt]

lemma verifyFrom_failFinal (t : Nat → AttemptOutcome) (fuel attempt : Nat)
    (sleeps : List Nat) (calls : Nat) (d : String)
    (h : attemptBody (t attempt) = .error (.requestException d))
    (hge : ¬ attempt < MAX_RETRIES - 1) :
    verifyFrom t (fuel + 1) attempt sleeps calls
      = ⟨some ⟨.str (connectFailText MAX_RETRIES d), []⟩, calls + 1, sleeps⟩ := by
  rw [verifyFrom_step, h]
  simp [hge]

lemma verifyFrom_other (t : Nat → AttemptOutcome) (fuel attempt : Nat)
    (sleeps : List Nat) (calls : Nat) (d : String)
    (h : attemptBody (t attempt) = .error (.otherException d)) :
    verifyFrom t (fuel + 1) attempt sleeps calls
      = ⟨some ⟨.str (unexpectedText d), []⟩, calls + 1, sleeps⟩ := by
  rw [verifyFrom_step, h]

/-- If the first four attempts all raise a RequestException, the loop
reaches the final attempt having slept 1, 2, 4, 8 time units. -/
lemma run_four_retries (t : Nat → AttemptOutcome)
    (h : ∀ i, i < 4 → ∃ d, attemptBody (t i) = .error (.requestException d)) :
    verify_run t = verifyFrom t 1 4 [1, 2, 4, 8] 4 := by
  obtain ⟨d0, h0⟩ := h 0 (by norm_num)
  obtain ⟨d1, h1⟩ := h 1 (by norm_num)
  obtain ⟨d2, h2⟩ := h 2 (by norm_num)
  obtain ⟨d3, h3⟩ := h 3 (by norm_num)
  have e0 : verifyFrom t 5 0 [] 0 = verifyFrom t 4 1 [1] 1 := by
    simpa using verifyFrom_retry t 4 0 [] 0 d0 h0 (by norm_num [MAX_RETRIES])
  have e1 : verifyFrom t 4 1 [1] 1 = verifyFrom t 3 2 [1, 2] 2 := by
    simpa using verifyFrom_retry t 3 1 [1] 1 d1 h1 (by norm_num [MAX_RETRIES])
  have e2 : verifyFrom t 3 2 [1, 2] 2 = verifyFrom t 2 3 [1, 2, 4] 3 := by
    simpa using verifyFrom_retry t 2 2 [1, 2] 2 d2 h2 (by norm_num [MAX_RETRIES])
  have e3 : verifyFrom t 2 3 [1, 2, 4] 3 = verifyFrom t 1 4 [1, 2, 4, 8] 4 := by
    simpa using verifyFrom_retry t 1 3 [1, 2, 4] 3 d3 h3 (by norm_num [MAX_RETRIES])
  exact e0.trans (e1.trans (e2.trans e3))

/-- Started with matching fuel, the loop always returns a value: it never
falls off its end.  The guard `attempt < MAX_RETRIES - 1` keeps the final
iteration from recursing, so fuel can never reach zero. -/
lemma verifyFrom_total (t : Nat → AttemptOutcome) :
    ∀ fuel attempt sleeps calls, attempt + fuel = MAX_RETRIES →
      attempt < MAX_RETRIES →
      ∃ r, (verifyFrom t fuel attempt sleeps calls).out = some r := by
  intro fuel
  induction fuel with
  | zero =>
    intro attempt sleeps calls h1 h2
    exact absurd h1 (by omega)
  | succ fuel ih =>
    intro attempt sleeps calls h1 h2
    cases hb : attemptBody (t attempt) with
    | ok r =>
      rw [verifyFrom_ok t fuel attempt sleeps calls r hb]
      exact ⟨r, rfl⟩
    | error e =>
      cases e with
      | requestException d =>
        by_cases hlt : attempt < MAX_RETRIES - 1
        · rw [verifyFrom_retry t fuel attempt sleeps calls d hb hlt]
          have h5 : MAX_RETRIES = 5 := rfl
          exact ih (attempt + 1) _ _ (by omega) (by omega)
        · rw [verifyFrom_failFinal t fuel attempt sleeps calls d hb hlt]
          exact ⟨_, rfl⟩
      | otherException d =>
        rw [verifyFrom_other t fuel attempt sleeps calls d hb]
        exact ⟨_, rfl⟩

/-- Any returned value with a non-empty sources list was the value of the
success return at app.py line 78 on some attempt: both error returns of the
loop and the final-failure return carry an empty sources list. -/
lemma verifyFrom_sources (t : Nat → AttemptOutcome) :
    ∀ fuel attempt sleeps calls r,
      (verifyFrom t fuel attempt sleeps calls).out = some r →
      (∃ i, attempt ≤ i ∧ i < attempt + fuel ∧ attemptBody (t i) = .ok r)
        ∨ r.sources = [] := by
  intro fuel
  induction fuel with
  | zero =>
    intro attempt sleeps calls r h
    exact absurd h (by simp [verifyFrom])
  | succ fuel ih =>
    intro attempt sleeps calls r h
    cases hb : attemptBody (t attempt) with
    | ok r0 =>
      rw [verifyFrom_ok t fuel attempt sleeps calls r0 hb] at h
      have hr : r0 = r := by simpa using h
      subst hr
      exact Or.inl ⟨attempt, le_refl _, by omega, hb⟩
    | error e =>
      cases e with
      | requestException d =>
        by_cases hlt : attempt < MAX_RETRIES - 1
        · rw [verifyFrom_retry t fuel attempt sleeps calls d hb hlt] at h
          rcases ih (attempt + 1) _ _ r h with ⟨i, hi1, hi2, hi3⟩ | hs
          · exact Or.inl ⟨i, by omega, by omega, hi3⟩
          · exact Or.inr hs
        · rw [verifyFrom_failFinal t fuel attempt sleeps calls d hb hlt] at h
          have hr : (⟨.str (connectFailText MAX_RETRIES d), []⟩ : VerificationResult) = r := by
            simpa using h
          exact Or.inr (hr ▸ rfl)
      | otherException d =>
        rw [verifyFrom_other t fuel attempt sleeps calls d hb] at h
        have hr : (⟨.str (unexpectedText d), []⟩ : VerificationResult) = r := by
          simpa using h
        exact Or.inr (hr ▸ rfl)

/-- The sleep delays of any run are 2 ^ 0, 2 ^ 1, ... in order: the delay
slept after the retryable failure of 0-based attempt i is exactly 2 ^ i. -/
lemma verifyFrom_sleeps (t : Nat → AttemptOutcome) :
    ∀ fuel attempt sleeps calls, ∃ k,
      (verifyFrom t fuel attempt sleeps calls).sleeps
        = sleeps ++ (List.range k).map fun j => 2 ^ (attempt + j) := by
  intro fuel
  induction fuel with
  | zero =>
    intro attempt sleeps calls
    exact ⟨0, by simp [verifyFrom]⟩
  | succ fuel ih =>
    intro attempt sleeps calls
    cases hb : attemptBody (t attempt) with
    | ok r =>
      exact ⟨0, by rw [verifyFrom_ok t fuel attempt sleeps calls r hb]; simp⟩
    | error e =>
      cases e with
      | requestException d =>
        by_cases hlt : attempt < MAX_RETRIES - 1
        · obtain ⟨k, hk⟩ := ih (attempt + 1) (sleeps ++ [2 ^ attempt]) (calls + 1)
          refine ⟨k + 1, ?_⟩
          rw [verifyFrom_retry t fuel attempt sleeps calls d hb hlt, hk,
            List.append_assoc]
          congr 1
          rw [List.range_succ_eq_map, List.map_cons, List.map_map,
            List.singleton_append]
          congr 1
          simp
          omega
        · exact ⟨0, by
            rw [verifyFrom_failFinal t fuel attempt sleeps calls d hb hlt]; simp⟩
      | otherException d =>
        exact ⟨0, by rw [verifyFrom_other t fuel attempt sleeps calls d hb]; simp⟩

/-- Appending a fresh key to an association list makes it found by lookup. -/
lemma lookup_append_self (c : String) (v : Option VerificationResult) :
    ∀ l : List (String × Option VerificationResult),
      l.lookup c = none → (l ++ [(c, v)]).lookup c = some v := by
  intro l
  induction l with
  | nil =>
    intro _
    simp [List.lookup]
  | cons kv rest ih =>
    intro h
    obtain ⟨k, r⟩ := kv
    by_cases hc : c = k
    · subst hc
      simp [List.lookup] at h
    · have hck : (c == k) = false := beq_eq_false_iff_ne.mpr hc
      rw [List.cons_append]
      simp only [List.lookup, hck] at h ⊢
      exact ih h

/-- The failure message contains the attempt count. -/
lemma connectFail_has_count (n : Nat) (d : String) :
    strHas (connectFailText n d) (toString n) :=
  ⟨"Error: Failed to connect to the verification service after ",
   " attempts. Details: " ++ d,
   by simp [connectFailText, String.append_assoc]⟩

/-- The failure message contains the last error detail. -/
lemma connectFail_has_detail (n : Nat) (d : String) :
    strHas (connectFailText n d) d :=
  ⟨"Error: Failed to connect to the verification service after " ++ toString n
    ++ " attempts. Details: ", "",
   by simp [connectFailText, String.append_assoc]⟩

/-- Classification at app.py line 60: `raise_for_status` turns every 4xx and
5xx status into an `HTTPError`, which is a `RequestException` - exactly the
class the loop retries. -/
lemma attemptBody_httpErr (s : Nat) (b : BodyContent) (h1 : 400 ≤ s) (h2 : s < 600) :
    attemptBody (.httpResponse s b)
      = .error (.requestException ("HTTPError: status " ++ toString s)) := by
  simp [attemptBody, h1, h2]

/-! ### Claims -/

/-- Claim C1: for every claim string, if every network attempt raises a
transport-level failure (connection error, timeout, 4xx/5xx status, or JSON
decode failure - the outcomes `raise_for_status` and `requests.post` turn
into a `RequestException`), then `verify_claim` performs exactly
`MAX_RETRIES = 5` network attempts, never a sixth, and returns an
error-shaped result whose text contains the attempt count and the last
error detail, with an empty sources list. -/
theorem claim_C1_retry_bound (t : Nat → AttemptOutcome)
    (h : ∀ i, i < MAX_RETRIES → ∃ d, attemptBody (t i) = .error (.requestException d)) :
    (verify_run t).attempts = MAX_RETRIES ∧
    ∃ d, attemptBody (t 4) = .error (.requestException d) ∧
      (verify_run t).out = some ⟨.str (connectFailText MAX_RETRIES d), []⟩ ∧
      strHas (connectFailText MAX_RETRIES d) (toString MAX_RETRIES) ∧
      strHas (connectFailText MAX_RETRIES d) d := by
  have h4 : ∀ i, i < 4 → ∃ d, attemptBody (t i) = .error (.requestException d) := by
    intro i hi
    refine h i ?_
    simp only [MAX_RETRIES]
    omega
  have e := run_four_retries t h4
  obtain ⟨d4, hd4⟩ := h 4 (by norm_num [MAX_RETRIES])
  have f := verifyFrom_failFinal t 0 4 [1, 2, 4, 8] 4 d4 hd4 (by norm_num [MAX_RETRIES])
  have eq := e.trans f
  exact ⟨by rw [eq]; rfl, d4, hd4, by rw [eq],
    connectFail_has_count _ _, connectFail_has_detail _ _⟩

/-- Witness for C1: the always-failing transport `twC1`. -/
theorem claim_C1_witness :
    (verify_run twC1).attempts = MAX_RETRIES ∧
    ∃ d, attemptBody (twC1 4) = .error (.requestException d) ∧
      (verify_run twC1).out = some ⟨.str (connectFailText MAX_RETRIES d), []⟩ ∧
      strHas (connectFailText MAX_RETRIES d) (toString MAX_RETRIES) ∧
      strHas (connectFailText MAX_RETRIES d) d :=
  claim_C1_retry_bound twC1 (fun _ _ => ⟨"boom", rfl⟩)

/-- Claim C2: for every behaviour of the transport and response body,
`verify_claim` returns a value - a dictionary with exactly the fields
`text` and `sources` (the type `VerificationResult`) - and never propagates
an exception: the loop body catches both exception classes, and the loop
guard makes the fall-off-the-end path (Python returning None) unreachable. -/
theorem claim_C2_no_exception (t : Nat → AttemptOutcome) :
    ∃ r : VerificationResult, verify_claim t = some r :=
  verifyFrom_total t MAX_RETRIES 0 [] 0 rfl (by norm_num [MAX_RETRIES])

/-- Claim C3, evaluated at the failing input of the claim: on the exact
attribution list of the claim, [{web: {uri: "https://a"}}, {other: {}},
{web: {uri: "https://b", title: "B"}}], the code reads the title of the
first kept attribution with direct indexing (app.py line 74), raises
KeyError, and the generic handler at line 90 converts the whole call into
the unexpected-error result with an empty sources list - not the claimed
two-element sources list with an empty default title. -/
theorem claim_C3_title_crash :
    verify_run twC3
      = ⟨some ⟨.str (unexpectedText (PyErr.keyError "title").detail), []⟩, 1, []⟩ := rfl

/-- Claim C4, evaluated at the failing input of the claim: on a well-formed
HTTP 200 body whose candidates list is empty, `result.get("candidates",
[{}])[0]` raises IndexError (the default only guards the missing key, not
the empty list), so the call returns the unexpected-error text of app.py
line 91, which differs from the fixed empty-candidate message of line 81.
The call does make only a single network attempt with no retry. -/
theorem claim_C4_empty_list_crash :
    verify_run twC4 = ⟨some ⟨.str (unexpectedText PyErr.indexError.detail), []⟩, 1, []⟩ ∧
    unexpectedText PyErr.indexError.detail ≠ emptyCandidateText :=
  ⟨rfl, by decide⟩

/-- Claim C5: the delay slept after a retryable failure of 0-based attempt
index i is 2 ^ i (last conjunct, for every transport); in particular when
attempts 1-4 fail retryably and attempt 5 succeeds, the run slept
1 + 2 + 4 + 8 = 15 time units and returns the success value of attempt 5. -/
theorem claim_C5_backoff (t : Nat → AttemptOutcome) (r : VerificationResult)
    (hfail : ∀ i, i < 4 → ∃ d, attemptBody (t i) = .error (.requestException d))
    (hok : attemptBody (t 4) = .ok r) :
    verify_run t = ⟨some r, 5, [1, 2, 4, 8]⟩ ∧
    (verify_run t).sleeps.sum = 15 ∧
    ∀ u : Nat → AttemptOutcome, ∃ k,
      (verify_run u).sleeps = (List.range k).map fun i => 2 ^ i := by
  have e := run_four_retries t hfail
  have f := verifyFrom_ok t 0 4 [1, 2, 4, 8] 4 r hok
  have eq := e.trans f
  refine ⟨eq, by rw [eq]; rfl, ?_⟩
  intro u
  obtain ⟨k, hk⟩ := verifyFrom_sleeps u MAX_RETRIES 0 [] 0
  refine ⟨k, ?_⟩
  have h0 : (verify_run u).sleeps
      = [] ++ (List.range k).map fun j => 2 ^ (0 + j) := hk
  simpa using h0

/-- Witness for C5: transport `twC5` fails on attempts 0-3 and succeeds on
attempt 4. -/
theorem claim_C5_witness :
    verify_run twC5 = ⟨some ⟨.str "T", []⟩, 5, [1, 2, 4, 8]⟩ ∧
    (verify_run twC5).sleeps.sum = 15 ∧
    ∀ u : Nat → AttemptOutcome, ∃ k,
      (verify_run u).sleeps = (List.range k).map fun i => 2 ^ i :=
  claim_C5_backoff twC5 ⟨.str "T", []⟩
    (fun i hi => ⟨"boom", by simp [twC5, hi, attemptBody]⟩) rfl

/-- Counterexample to claim C6 as stated: two attributions with the same
web uri yield two equal SourceRefs in the output, not a single one - the
code performs no deduplication. -/
theorem claim_C6_counterexample :
    (verify_run twC6).out = some ⟨.str "T",
      [⟨.str "https://a", .str "A"⟩, ⟨.str "https://a", .str "A"⟩]⟩ ∧
    (verify_run twC6).attempts = 1 :=
  ⟨rfl, rfl⟩

/-- Claim C6 as amended: the sources list is not deduplicated - every
attribution with a non-empty web uri is projected to its own SourceRef in
response order, so a repeated attribution appears repeatedly. -/
theorem claim_C6_no_dedup (uri title text : String)
    (hu : uri ≠ "") (ht : text ≠ "") (t : Nat → AttemptOutcome)
    (h0 : t 0 = .httpResponse 200 (.jsonBody (goodBody text
      [webAttr uri title, webAttr uri title]))) :
    verify_claim t = some ⟨.str text,
      [⟨.str uri, .str title⟩, ⟨.str uri, .str title⟩]⟩ := by
  have huE : uri.isEmpty = false := by
    cases hE : uri.isEmpty
    · rfl
    · exact absurd ((String.isEmpty_iff _).mp hE) hu
  have htE : text.isEmpty = false := by
    cases hE : text.isEmpty
    · rfl
    · exact absurd ((String.isEmpty_iff _).mp hE) ht
  have hb : attemptBody (t 0) = .ok ⟨.str text,
      [⟨.str uri, .str title⟩, ⟨.str uri, .str title⟩]⟩ := by
    rw [h0]
    simp [attemptBody, tryBlock, goodBody, webAttr, pyGetD, pyGet, pyItem,
      pyItem0, pyIter, pyContains, pyAndCond, extractSources, extractOne,
      Json.truthy, Json.lookupField, huE, htE,
      Except.bind, bind, pure, Except.pure]
  have h5 := verifyFrom_ok t 4 0 [] 0 _ hb
  show (verifyFrom t (4 + 1) 0 [] 0).out = _
  rw [h5]

/-- Witness for the amended C6, at the duplicate-attribution transport. -/
theorem claim_C6_witness :
    verify_claim twC6 = some ⟨.str "T",
      [⟨.str "https://a", .str "A"⟩, ⟨.str "https://a", .str "A"⟩]⟩ :=
  claim_C6_no_dedup "https://a" "A" "T" (by decide) (by decide) twC6 rfl

/-- Claim C7 (st.cache_data modelled from the spec): submitting the same
claim string a second time performs zero network calls, returns a value
equal to the first call's result, and leaves the cache unchanged, whatever
the transport does on either occasion and whatever the cache held before. -/
theorem claim_C7_memoization (t u : String → Nat → AttemptOutcome)
    (s : CacheState) (c : String) :
    (cached_verify u (cached_verify t s c).state c).networkCalls = 0 ∧
    (cached_verify u (cached_verify t s c).state c).result
      = (cached_verify t s c).result ∧
    (cached_verify u (cached_verify t s c).state c).state
      = (cached_verify t s c).state := by
  cases hl : s.entries.lookup c with
  | some r =>
    simp [cached_verify, hl]
  | none =>
    have key : ((s.entries ++ [(c, (verify_run (t c)).out)]).lookup c)
        = some (verify_run (t c)).out :=
      lookup_append_self c _ s.entries hl
    simp [cached_verify, hl, key]

/-- Counterexample to claim C8 as stated: a 304 response has a non-2xx
status, yet on the first (non-final) attempt it is not treated as a
retryable failure - `raise_for_status` raises only for statuses 400-599,
so the body is parsed and the call returns after a single attempt with no
backoff sleep. -/
theorem claim_C8_counterexample :
    ¬ (200 ≤ 304 ∧ 304 < 300) ∧
    verify_run twC8 = ⟨some ⟨.str "T", []⟩, 1, []⟩ :=
  ⟨by decide, rfl⟩

/-- Claim C8 as amended: every 4xx or 5xx status (client errors included)
is turned into the same retryable `RequestException` as a transport
failure, uniformly, so four such responses in a row are all retried with
the backoff delays 1, 2, 4, 8 and a fifth attempt is made. -/
theorem claim_C8_uniform_retry (t : Nat → AttemptOutcome)
    (h : ∀ i, i < 4 → ∃ s b, t i = .httpResponse s b ∧ 400 ≤ s ∧ s < 600) :
    (verify_run t).attempts = 5 ∧
    (verify_run t).sleeps = [1, 2, 4, 8] ∧
    ∀ s b, 400 ≤ s → s < 600 →
      attemptBody (.httpResponse s b)
        = .error (.requestException ("HTTPError: status " ++ toString s)) := by
  have hfail : ∀ i, i < 4 → ∃ d, attemptBody (t i) = .error (.requestException d) := by
    intro i hi
    obtain ⟨st, b, hti, h1, h2⟩ := h i hi
    exact ⟨_, by rw [hti]; exact attemptBody_httpErr st b h1 h2⟩
  have e := run_four_retries t hfail
  cases hb : attemptBody (t 4) with
  | ok r =>
    have eq := e.trans (verifyFrom_ok t 0 4 [1, 2, 4, 8] 4 r hb)
    exact ⟨by rw [eq], by rw [eq], fun s b h1 h2 => attemptBody_httpErr s b h1 h2⟩
  | error ex =>
    cases ex with
    | requestException d =>
      have eq := e.trans
        (verifyFrom_failFinal t 0 4 [1, 2, 4, 8] 4 d hb (by norm_num [MAX_RETRIES]))
      exact ⟨by rw [eq], by rw [eq], fun s b h1 h2 => attemptBody_httpErr s b h1 h2⟩
    | otherException d =>
      have eq := e.trans (verifyFrom_other t 0 4 [1, 2, 4, 8] 4 d hb)
      exact ⟨by rw [eq], by rw [eq], fun s b h1 h2 => attemptBody_httpErr s b h1 h2⟩

/-- Witness for the amended C8: the always-500 transport. -/
theorem claim_C8_witness :
    (verify_run twC8b).attempts = 5 ∧
    (verify_run twC8b).sleeps = [1, 2, 4, 8] ∧
    ∀ s b, 400 ≤ s → s < 600 →
      attemptBody (.httpResponse s b)
        = .error (.requestException ("HTTPError: status " ++ toString s)) :=
  claim_C8_uniform_retry twC8b
    (fun i _ => ⟨500, .jsonBody Json.null, rfl, by norm_num, by norm_num⟩)

/-- Claim C9: every returned value is a `VerificationResult` (exactly the
fields text and sources); whenever the returned sources list is non-empty,
the value came from the success return of app.py line 78 on some attempt -
all other return paths (retry exhaustion, empty candidate, unexpected
exception) carry an empty sources list. -/
theorem claim_C9_sources_empty_on_error (t : Nat → AttemptOutcome)
    (r : VerificationResult) (h : verify_claim t = some r)
    (hs : r.sources ≠ []) :
    ∃ i, i < MAX_RETRIES ∧ attemptBody (t i) = .ok r := by
  rcases verifyFrom_sources t MAX_RETRIES 0 [] 0 r h with ⟨i, _, hi2, hi3⟩ | he
  · exact ⟨i, by simpa using hi2, hi3⟩
  · exact absurd he hs

/-- Witness for C9: a transport with one web attribution. -/
theorem claim_C9_witness :
    ∃ i, i < MAX_RETRIES ∧ attemptBody (twC9 i)
      = .ok ⟨.str "T", [⟨.str "https://a", .str "A"⟩]⟩ :=
  claim_C9_sources_empty_on_error twC9
    ⟨.str "T", [⟨.str "https://a", .str "A"⟩]⟩ rfl (by simp)

/-- Claim C10: an HTTP 200 body lacking the "candidates" key entirely hits
the `[{}]` default of app.py line 63, the empty dict candidate is falsy,
and the call returns the fixed empty-candidate message with empty sources
after a single attempt; whereas the same default does not protect other
malformed bodies - with "candidates" present but empty the call returns
the unexpected-error message instead. -/
theorem claim_C10_missing_key_default (t : Nat → AttemptOutcome)
    (fields : List (String × Json))
    (hnone : Json.lookupField fields "candidates" = none)
    (h0 : t 0 = .httpResponse 200 (.jsonBody (.obj fields))) :
    verify_run t = ⟨some ⟨.str emptyCandidateText, []⟩, 1, []⟩ ∧
    (verify_run twC4).out = some ⟨.str (unexpectedText PyErr.indexError.detail), []⟩ ∧
    unexpectedText PyErr.indexError.detail ≠ emptyCandidateText := by
  refine ⟨?_, rfl, by decide⟩
  have hb : attemptBody (t 0) = .ok ⟨.str emptyCandidateText, []⟩ := by
    rw [h0]
    simp [attemptBody, tryBlock, pyGetD, pyItem0, pyAndCond, Json.truthy, hnone,
      Except.bind, bind, pure, Except.pure]
  exact verifyFrom_ok t 4 0 [] 0 _ hb

/-- Witness for C10: a 200 body with an unrelated key only. -/
theorem claim_C10_witness :
    verify_run twC10 = ⟨some ⟨.str emptyCandidateText, []⟩, 1, []⟩ ∧
    (verify_run twC4).out = some ⟨.str (unexpectedText PyErr.indexError.detail), []⟩ ∧
    unexpectedText PyErr.indexError.detail ≠ emptyCandidateText :=
  claim_C10_missing_key_default twC10 [("other", Json.null)] rfl rfl
